import Mathlib

/-!
Shallow embedding of the row-classification, title-normalization and
CSV-export logic of the Excel-AI-project repository
(src/main_gui.py, src/ai_connect.py, src/init_csv.py).

Modelling conventions:
  * JSON values flowing between the pipeline stages are modelled by `JValue`;
    a Python dict is an association list (`Item`) with Python's
    insertion-order update semantics (`dset` updates an existing key in
    place and appends a fresh key at the end; `dget?` reads the first
    occurrence).
  * Excel cell values (`cell.Value` over COM) are modelled by `CellValue`:
    `vnone` is Python `None` (an empty cell), `vstr` a string cell, and
    numeric cells are modelled as integers (`vint`); floating point is out
    of scope of the embedding.
  * The remote model service (`client.responses.create`) is an oracle
    parameter `String`-producing function that may fail with an
    authentication or API error; the calls the code makes are returned as
    an explicit log so that "no remote call is made" is a provable fact.
-/

set_option autoImplicit false

namespace ExcelAI

/-- JSON values appearing in the intermediate JSON records. -/
inductive JValue where
  | jnull
  | jstr (s : String)
  | jint (n : Int)
  | jbool (b : Bool)
  deriving DecidableEq, Repr

/-- A Python dict (JSON object) as an ordered association list. -/
abbrev Item := List (String × JValue)

/-- Python `d.get(key)` without default: the value at the first occurrence
of `key`, if any. -/
def dget? : Item → String → Option JValue
  | [], _ => none
  | (k, v) :: rest, key => if k = key then some v else dget? rest key

/-- Python `d.get(key, dflt)`. -/
def dgetD (d : Item) (key : String) (dflt : JValue) : JValue :=
  (dget? d key).getD dflt

/-- Python `d[key] = v`: update the existing key in place, otherwise append
the new key at the end (insertion order is preserved, as in CPython). -/
def dset : Item → String → JValue → Item
  | [], key, v => [(key, v)]
  | (k, w) :: rest, key, v =>
    if k = key then (k, v) :: rest else (k, w) :: dset rest key v

/-- Excel cell values as delivered over COM (`cell.Value`). -/
inductive CellValue where
  | vnone
  | vstr (s : String)
  | vint (n : Int)
  deriving DecidableEq, Repr

/-- Numeric value of a list of decimal digit characters. -/
def digitsVal (l : List Char) : Nat :=
  l.foldl (fun acc c => acc * 10 + (c.toNat - 48)) 0

/-- Python `str.strip()`: drop leading and trailing whitespace. -/
def pyStrip (s : String) : String :=
  String.mk (((s.data.dropWhile Char.isWhitespace).reverse.dropWhile
    Char.isWhitespace).reverse)

/-- Python `int(s)` on a string: optional surrounding whitespace, optional
sign, then a non-empty run of decimal digits; anything else raises
`ValueError` (modelled as `none`). -/
def parsePyInt (s : String) : Option Int :=
  match (pyStrip s).toList with
  | [] => none
  | c :: rest =>
    if c = '-' then
      match rest with
      | [] => none
      | _ => if rest.all Char.isDigit then some (-(digitsVal rest : Int)) else none
    else if c = '+' then
      match rest with
      | [] => none
      | _ => if rest.all Char.isDigit then some ((digitsVal rest : Int)) else none
    else
      if (c :: rest).all Char.isDigit then some ((digitsVal (c :: rest) : Int))
      else none

/-- Python `int(value)` on a cell value: `int(None)` raises (`none`),
strings go through `parsePyInt`, integers are returned unchanged. -/
def pyToInt : CellValue → Option Int
  | .vnone => none
  | .vstr s => parsePyInt s
  | .vint n => some n

/-- Embedding of a cell value into the JSON record
(`record[json_key] = value`). -/
def cellToJ : CellValue → JValue
  | .vnone => .jnull
  | .vstr s => .jstr s
  | .vint n => .jint n

/-- Python `value in (None, "")`, the per-cell emptiness test of the
extraction loop in `run_excel_process`. -/
def cellEmpty : CellValue → Bool
  | .vnone => true
  | .vstr s => s == ""
  | .vint _ => false

/-- The sentinel highlight color `9895780` compared against
`cell.DisplayFormat.Interior.Color` in `run_excel_process`. -/
def SENTINEL_COLOR : Int := 9895780

/-- A raw spreadsheet row as read by `run_excel_process`: the three mapped
cells (columns I, F, G of `OUTPUT_MAPPING`) plus the rendered background
color of the title cell. -/
structure RawRow where
  titleVal : CellValue
  titleColor : Int
  asinVal : CellValue
  volumeVal : CellValue
  deriving DecidableEq, Repr

/-- Normalization of the volume cell in `run_excel_process`
(`main_gui.py` lines 120-127): `None` becomes `1`, otherwise `int(value)`
with any parse failure caught and replaced by `1`. -/
def normVolume : CellValue → Int
  | .vnone => 1
  | v => match pyToInt v with
    | some n => n
    | none => 1

/-- The record built for one spreadsheet row by the extraction loop of
`run_excel_process` (`main_gui.py` lines 107-127), in the dict insertion
order of `OUTPUT_MAPPING`: the title value, the color flag
(`color_value == 9895780`), the ASIN value, and the normalized volume. -/
def classifyRow (r : RawRow) : Item :=
  let d : Item := dset [] "タイトル" (cellToJ r.titleVal)
  let d := dset d "color" (.jbool (r.titleColor == SENTINEL_COLOR))
  let d := dset d "ASIN" (cellToJ r.asinVal)
  dset d "巻数" (.jint (normVolume r.volumeVal))

/-- Python `empty_row` flag of the extraction loop: every mapped cell of
the row is `None` or the empty string; such a row terminates the loop
instead of producing a record. -/
def isEmptyRow (r : RawRow) : Bool :=
  cellEmpty r.titleVal && cellEmpty r.asinVal && cellEmpty r.volumeVal

/-- Failure of one remote call to the model service
(`client.responses.create`). -/
inductive ApiErr where
  | authError
  | apiError
  deriving DecidableEq, Repr

/-- Errors with which `edit_json_with_openai` can abort: the `ValueError`
re-raised from `AuthenticationError`, the `RuntimeError` re-raised from
`APIError`, and the uncaught `IndexError` from `lines[0]` / `lines[1]`. -/
inductive EditErr where
  | valueErrorAuth
  | runtimeErrorApi
  | indexError
  deriving DecidableEq, Repr

/-- Python `color == True` (`ai_connect.py` line 167): `True` compares
equal to `True` and to the number `1`, and to nothing else among the JSON
values that can occur here. -/
def pyEqTrue : JValue → Bool
  | .jbool b => b
  | .jint n => n == 1
  | _ => false

/-- Splitting a character list at every newline, keeping empty pieces:
the behavior of Python `text.split("\n")`. -/
def splitNlAux : List Char → List Char → List (List Char)
  | [], acc => [acc.reverse]
  | c :: rest, acc =>
    if c = '\n' then acc.reverse :: splitNlAux rest []
    else splitNlAux rest (c :: acc)

/-- Python `text.split("\n")`. -/
def splitNewlines (text : String) : List String :=
  (splitNlAux text.data []).map String.mk

/-- Line splitting of the model response (`ai_connect.py` line 185):
`[line.strip() for line in text.split("\n") if line.strip()]`, i.e. split
on newlines, strip each piece, keep the non-empty ones. -/
def splitLines (text : String) : List String :=
  ((splitNewlines text).map pyStrip).filter (fun l => l ≠ "")

/-- Loop body of `edit_json_with_openai` (`ai_connect.py` lines 162-204)
for one JSON item. The model service is the `oracle` parameter; the second
component of the result is the log of title payloads submitted to it.
When the color flag is truthy the raw title is sent; `lines[1]` on a
response with fewer than two non-empty lines raises an `IndexError` that no
`except` clause of the source catches; a non-`"0"` second line is stored in
`巻数` as the raw (string) line. When the color flag is not truthy, no call
is made and the title is written back unchanged. -/
def editItem (oracle : JValue → Except ApiErr String) (item : Item) :
    Except EditErr Item × List JValue :=
  let user_content := dgetD item "タイトル" .jnull
  let color := dgetD item "color" (.jbool false)
  if pyEqTrue color then
    match oracle user_content with
    | .error .authError => (.error .valueErrorAuth, [user_content])
    | .error .apiError => (.error .runtimeErrorApi, [user_content])
    | .ok text =>
      match splitLines text with
      | [] => (.error .indexError, [user_content])
      | [_] => (.error .indexError, [user_content])
      | title :: explanation :: _ =>
        let ni := dset item "タイトル" (.jstr title)
        let ni := if explanation ≠ "0" then dset ni "巻数" (.jstr explanation) else ni
        (.ok ni, [user_content])
  else
    (.ok (dset item "タイトル" user_content), [])

/-- The batch loop of `edit_json_with_openai` (`ai_connect.py` lines
161-206): process the items in order, appending each edited item to the
result; any exception raised for an item aborts the whole loop, and the
items edited so far are never returned. The call log accumulates across
items. -/
def edit_json_with_openai (oracle : JValue → Except ApiErr String) :
    List Item → Except EditErr (List Item) × List JValue
  | [] => (.ok [], [])
  | item :: rest =>
    match editItem oracle item with
    | (.error e, log) => (.error e, log)
    | (.ok ni, log) =>
      match edit_json_with_openai oracle rest with
      | (.error e, log2) => (.error e, log ++ log2)
      | (.ok nis, log2) => (.ok (ni :: nis), log ++ log2)

/-- Rendering of a JSON value into a CSV cell, as Python's `csv.writer`
does via `str()` — with `None` written as the empty string. -/
def jToCsv : JValue → String
  | .jnull => ""
  | .jstr s => s
  | .jint n => toString n
  | .jbool b => if b then "True" else "False"

/-- Construction of one output CSV row in `input_json_convert_csv`
(`ai_connect.py` lines 220-223): a row of `width` empty strings with the
title written at index 2, the volume at index 6 and the ASIN at index 14,
each defaulting to the empty string when the key is missing. -/
def makeRow (width : Nat) (item : Item) : List String :=
  let row := List.replicate width ""
  let row := row.set 2 (jToCsv (dgetD item "タイトル" (.jstr "")))
  let row := row.set 6 (jToCsv (dgetD item "巻数" (.jstr "")))
  row.set 14 (jToCsv (dgetD item "ASIN" (.jstr "")))

/-- Result of `input_json_convert_csv`: `noData` models the early `return
None` on empty input, `err` the `RuntimeError` re-raised from any exception
(in particular the `IndexError` of `rows[0]` or `row[14]` when the
pre-existing file is empty or its header is narrower than 15 columns), and
`ok` carries the rows written back. -/
inductive CsvResult where
  | noData
  | err
  | ok (out : List (List String))
  deriving DecidableEq, Repr

/-- Embedding of `input_json_convert_csv` (`ai_connect.py` lines 208-233).
The pre-existing CSV file is passed as its parsed rows. Only the header row
(`rows[0:1]`) is kept; every record of `json_data` then contributes one
fresh row built by `makeRow` from a blank row of the header's width. -/
def input_json_convert_csv (json_data : List Item)
    (rows : List (List String)) : CsvResult :=
  if json_data = [] then .noData
  else
    match rows with
    | [] => .err
    | header :: _ =>
      if header.length < 15 then .err
      else .ok (header :: json_data.map (makeRow header.length))

/-- The rows a CSV parse of the registry file yields: `csv.DictReader`
output, one ordered field mapping per data row. -/
abbrev RegRows := List (List (String × String))

/-- The encoding candidate list of `init_csv.py` (lines 22-27). -/
def DEFAULT_ENCODINGS : List String := ["utf-8-sig", "utf-8", "cp932", "shift_jis"]

/-- The encoding loop of `read_public_csv` (`init_csv.py` lines 44-51):
try each encoding in order and return the parse of the first one that
decodes the file; `decode e = none` models a `UnicodeDecodeError` for
encoding `e`. -/
def tryEncodings (decode : String → Option RegRows) : List String → Option RegRows
  | [] => none
  | e :: es =>
    match decode e with
    | some rows => some rows
    | none => tryEncodings decode es

/-- Embedding of `read_public_csv` (`init_csv.py` lines 33-59) after the
existence check: return the rows of the first encoding in
`DEFAULT_ENCODINGS` that decodes the file, and raise `CsvReadError`
(modelled as the `.error` case) when none does. The `OSError` branch is an
I/O fault outside the pure model of the file contents. -/
def read_public_csv (decode : String → Option RegRows) : Except Unit RegRows :=
  match tryEncodings decode DEFAULT_ENCODINGS with
  | some rows => .ok rows
  | none => .error ()

/-- The exception `edit_json_with_openai` re-raises for each kind of
remote-call failure (`ai_connect.py` lines 199-204): `AuthenticationError`
becomes a `ValueError`, `APIError` becomes a `RuntimeError`. -/
def reraise : ApiErr → EditErr
  | .authError => .valueErrorAuth
  | .apiError => .runtimeErrorApi

/-- Observation helper: the cell at data position `(i, j)` of a table of
rows, when both indices are in range. -/
def cellAt (table : List (List String)) (i j : Nat) : Option String :=
  (table[i]?).bind (fun row => row[j]?)

theorem dget_dset_eq (d : Item) (key : String) (v : JValue) :
    dget? (dset d key v) key = some v := by
  induction d with
  | nil => simp [dset, dget?]
  | cons hd tl ih =>
    obtain ⟨k, w⟩ := hd
    by_cases h : k = key <;> simp [dset, dget?, h, ih]

theorem dget_dset_ne (d : Item) (key other : String) (v : JValue)
    (h : other ≠ key) : dget? (dset d key v) other = dget? d other := by
  induction d with
  | nil => simp [dset, dget?, Ne.symm h]
  | cons hd tl ih =>
    obtain ⟨k, w⟩ := hd
    by_cases hk : k = key
    · subst hk
      simp [dset, dget?, Ne.symm h]
    · by_cases ho : k = other <;> simp [dset, dget?, hk, ho, ih, h]

theorem classifyRow_color (r : RawRow) :
    dget? (classifyRow r) "color" = some (.jbool (r.titleColor == SENTINEL_COLOR)) := rfl

theorem classifyRow_volume (r : RawRow) :
    dget? (classifyRow r) "巻数" = some (.jint (normVolume r.volumeVal)) := rfl

theorem classifyRow_title (r : RawRow) :
    dget? (classifyRow r) "タイトル" = some (cellToJ r.titleVal) := rfl

theorem classifyRow_asin (r : RawRow) :
    dget? (classifyRow r) "ASIN" = some (cellToJ r.asinVal) := rfl

theorem normVolume_of_parse_fail (v : CellValue) (h : pyToInt v = none) :
    normVolume v = 1 := by
  cases v with
  | vnone => rfl
  | vstr s => simp [pyToInt] at h; simp [normVolume, pyToInt, h]
  | vint n => simp [pyToInt] at h

theorem normVolume_of_parse (v : CellValue) (n : Int) (h : pyToInt v = some n) :
    normVolume v = n := by
  cases v with
  | vnone => simp [pyToInt] at h
  | vstr s => simp [pyToInt] at h; simp [normVolume, pyToInt, h]
  | vint m => simp [pyToInt] at h; simp [normVolume, pyToInt, h]

theorem editItem_dirty_log (oracle : JValue → Except ApiErr String) (item : Item)
    (h : pyEqTrue (dgetD item "color" (.jbool false)) = true) :
    (editItem oracle item).2 = [dgetD item "タイトル" .jnull] := by
  simp only [editItem, h, if_true]
  cases ho : oracle (dgetD item "タイトル" .jnull) with
  | error e => cases e <;> simp [ho]
  | ok text =>
    cases hl : splitLines text with
    | nil => simp [ho, hl]
    | cons a l => cases l <;> simp [ho, hl]

theorem editItem_clean (oracle : JValue → Except ApiErr String) (item : Item)
    (h : pyEqTrue (dgetD item "color" (.jbool false)) = false) :
    editItem oracle item = (.ok (dset item "タイトル" (dgetD item "タイトル" .jnull)), []) := by
  simp [editItem, h]

/-- C1: a row whose title-cell background color equals the sentinel
`9895780` gets a `color` (dirty) flag of `true`, whatever its volume cell
holds; and for every record whose dirty flag is truthy the normalizer
submits exactly the raw title value to the remote model service. -/
theorem sentinel_marks_dirty_and_dirty_submits_title (r : RawRow)
    (oracle : JValue → Except ApiErr String) (item : Item)
    (hc : r.titleColor = SENTINEL_COLOR)
    (hd : pyEqTrue (dgetD item "color" (.jbool false)) = true) :
    dget? (classifyRow r) "color" = some (.jbool true) ∧
    (editItem oracle item).2 = [dgetD item "タイトル" .jnull] := by
  refine ⟨?_, editItem_dirty_log oracle item hd⟩
  rw [classifyRow_color, hc]
  simp

theorem sentinel_marks_dirty_and_dirty_submits_title_witness :
    dget? (classifyRow ⟨.vstr "t", 9895780, .vnone, .vint 2⟩) "color" =
      some (.jbool true) ∧
    (editItem (fun _ => .ok "A\n3")
      [("タイトル", .jstr "raw"), ("color", .jbool true)]).2 = [.jstr "raw"] :=
  sentinel_marks_dirty_and_dirty_submits_title
    ⟨.vstr "t", 9895780, .vnone, .vint 2⟩ (fun _ => .ok "A\n3")
    [("タイトル", .jstr "raw"), ("color", .jbool true)] rfl (by decide)

/-- C2 counterexample: the row with an empty title value, a non-sentinel
background color `0`, ASIN `"B0XYZ"` and volume `3` is a data row (not the
end-of-data sentinel), yet its `color` (dirty) flag is `false` — an empty
title does not make a row dirty. -/
theorem empty_title_not_dirty_counterexample :
    cellEmpty (RawRow.mk (.vstr "") 0 (.vstr "B0XYZ") (.vint 3)).titleVal = true ∧
    isEmptyRow (RawRow.mk (.vstr "") 0 (.vstr "B0XYZ") (.vint 3)) = false ∧
    dget? (classifyRow (RawRow.mk (.vstr "") 0 (.vstr "B0XYZ") (.vint 3))) "color" =
      some (.jbool false) := by decide

/-- C2 amended: the dirty flag of a classified row equals the sentinel
color test alone (an empty title does not force it); and every record
whose dirty flag is not truthy — empty-title rows included — triggers no
remote call and keeps its title value unchanged. -/
theorem dirty_is_color_only_and_clean_skips_call (r : RawRow)
    (oracle : JValue → Except ApiErr String) (item : Item)
    (h : pyEqTrue (dgetD item "color" (.jbool false)) = false) :
    dget? (classifyRow r) "color" = some (.jbool (r.titleColor == SENTINEL_COLOR)) ∧
    (editItem oracle item).2 = [] ∧
    (editItem oracle item).1 = .ok (dset item "タイトル" (dgetD item "タイトル" .jnull)) ∧
    dgetD (dset item "タイトル" (dgetD item "タイトル" .jnull)) "タイトル" .jnull =
      dgetD item "タイトル" .jnull := by
  refine ⟨classifyRow_color r, ?_, ?_, ?_⟩
  · rw [editItem_clean oracle item h]
  · rw [editItem_clean oracle item h]
  · simp [dgetD, dget_dset_eq]

theorem dirty_is_color_only_and_clean_skips_call_witness :
    dget? (classifyRow ⟨.vstr "", 0, .vstr "B0XYZ", .vint 3⟩) "color" =
      some (.jbool ((0 : Int) == SENTINEL_COLOR)) ∧
    (editItem (fun _ => .ok "A\n3") [("タイトル", .jstr ""), ("color", .jbool false)]).2 = [] ∧
    (editItem (fun _ => .ok "A\n3") [("タイトル", .jstr ""), ("color", .jbool false)]).1 =
      .ok (dset [("タイトル", .jstr ""), ("color", .jbool false)] "タイトル"
        (dgetD [("タイトル", .jstr ""), ("color", .jbool false)] "タイトル" .jnull)) ∧
    dgetD (dset [("タイトル", .jstr ""), ("color", .jbool false)] "タイトル"
        (dgetD [("タイトル", .jstr ""), ("color", .jbool false)] "タイトル" .jnull))
      "タイトル" .jnull =
      dgetD [("タイトル", .jstr ""), ("color", .jbool false)] "タイトル" .jnull :=
  dirty_is_color_only_and_clean_skips_call ⟨.vstr "", 0, .vstr "B0XYZ", .vint 3⟩
    (fun _ => .ok "A\n3") [("タイトル", .jstr ""), ("color", .jbool false)] (by decide)

/-- C3: the classifier emits volume `1` for every row whose volume cell is
`None` or fails Python integer parsing, and emits exactly the parsed
integer for every row whose volume cell parses. -/
theorem classifier_volume_default_and_parse (r : RawRow) :
    (pyToInt r.volumeVal = none → dget? (classifyRow r) "巻数" = some (.jint 1)) ∧
    (∀ n : Int, pyToInt r.volumeVal = some n →
      dget? (classifyRow r) "巻数" = some (.jint n)) := by
  constructor
  · intro h
    rw [classifyRow_volume, normVolume_of_parse_fail _ h]
  · intro n h
    rw [classifyRow_volume, normVolume_of_parse _ _ h]

theorem classifier_volume_default_and_parse_witness :
    dget? (classifyRow ⟨.vstr "t", 0, .vnone, .vstr "x2"⟩) "巻数" = some (.jint 1) ∧
    dget? (classifyRow ⟨.vstr "t", 0, .vnone, .vstr "7"⟩) "巻数" = some (.jint 7) :=
  ⟨(classifier_volume_default_and_parse ⟨.vstr "t", 0, .vnone, .vstr "x2"⟩).1 (by decide),
   (classifier_volume_default_and_parse ⟨.vstr "t", 0, .vnone, .vstr "7"⟩).2 7 (by decide)⟩

theorem editItem_short_response (oracle : JValue → Except ApiErr String)
    (item : Item) (text : String)
    (hc : pyEqTrue (dgetD item "color" (.jbool false)) = true)
    (ho : oracle (dgetD item "タイトル" .jnull) = .ok text)
    (hlen : (splitLines text).length < 2) :
    (editItem oracle item).1 = .error .indexError := by
  simp only [editItem, hc, if_true, ho]
  rcases hl : splitLines text with _ | ⟨a, _ | ⟨b, l⟩⟩
  · rfl
  · rfl
  · rw [hl] at hlen; simp only [List.length_cons] at hlen; omega

theorem editItem_two_lines (oracle : JValue → Except ApiErr String)
    (item : Item) (text title explanation : String) (rest : List String)
    (hc : pyEqTrue (dgetD item "color" (.jbool false)) = true)
    (ho : oracle (dgetD item "タイトル" .jnull) = .ok text)
    (hl : splitLines text = title :: explanation :: rest) :
    (editItem oracle item).1 =
      .ok (if explanation ≠ "0"
        then dset (dset item "タイトル" (.jstr title)) "巻数" (.jstr explanation)
        else dset item "タイトル" (.jstr title)) := by
  simp only [editItem, hc, if_true, ho, hl]

/-- C4 counterexample: with the model (stubbed) returning the single line
`"OnlyTitle"`, the normalizer raises an uncaught `IndexError` instead of
keeping the line as the title with no volume; and with the model returning
`"Title"` and `"4"`, the volume is stored as the raw string `"4"`
(`JValue.jstr`), not as a parsed integer (`JValue.jint`). -/
theorem response_parsing_counterexample :
    (editItem (fun _ => .ok "OnlyTitle")
      [("タイトル", .jstr "raw"), ("color", .jbool true)]).1 =
      .error .indexError ∧
    (editItem (fun _ => .ok "Title\n4")
      [("タイトル", .jstr "raw"), ("color", .jbool true)]).1 =
      .ok [("タイトル", .jstr "Title"), ("color", .jbool true), ("巻数", .jstr "4")] ∧
    dget? [("タイトル", .jstr "Title"), ("color", .jbool true), ("巻数", .jstr "4")]
      "巻数" = some (.jstr "4") :=
  ⟨rfl, rfl, by decide⟩

/-- C4 amended: the response is split into non-empty stripped lines; with at
least two lines, line 1 becomes the title and, unless the second line is
`"0"`, the raw second-line string (not a parsed integer) is stored as the
volume; with fewer than two lines the code raises an uncaught `IndexError`
instead of attaching the title without a volume. -/
theorem response_parsing_amended (oracle : JValue → Except ApiErr String)
    (item : Item) (text : String)
    (hc : pyEqTrue (dgetD item "color" (.jbool false)) = true)
    (ho : oracle (dgetD item "タイトル" .jnull) = .ok text) :
    ((splitLines text).length < 2 →
      (editItem oracle item).1 = .error .indexError) ∧
    (∀ title explanation rest, splitLines text = title :: explanation :: rest →
      (editItem oracle item).1 =
        .ok (if explanation ≠ "0"
          then dset (dset item "タイトル" (.jstr title)) "巻数" (.jstr explanation)
          else dset item "タイトル" (.jstr title))) :=
  ⟨editItem_short_response oracle item text hc ho,
   fun title explanation rest hl =>
     editItem_two_lines oracle item text title explanation rest hc ho hl⟩

theorem response_parsing_amended_witness :
    (editItem (fun _ => .ok "Solo")
      [("タイトル", .jstr "raw"), ("color", .jbool true)]).1 =
      .error .indexError ∧
    (editItem (fun _ => .ok "T\n4")
      [("タイトル", .jstr "raw"), ("color", .jbool true)]).1 =
      .ok (if ("4" : String) ≠ "0"
        then dset (dset [("タイトル", .jstr "raw"), ("color", .jbool true)]
          "タイトル" (.jstr "T")) "巻数" (.jstr "4")
        else dset [("タイトル", .jstr "raw"), ("color", .jbool true)]
          "タイトル" (.jstr "T")) :=
  ⟨(response_parsing_amended (fun _ => .ok "Solo")
      [("タイトル", .jstr "raw"), ("color", .jbool true)] "Solo"
      (by decide) rfl).1 (by decide),
   (response_parsing_amended (fun _ => .ok "T\n4")
      [("タイトル", .jstr "raw"), ("color", .jbool true)] "T\n4"
      (by decide) rfl).2 "T" "4" [] (by decide)⟩

theorem edit_json_err_after_ok_run (oracle : JValue → Except ApiErr String)
    (pre rest : List Item) (e : EditErr)
    (hpre : ∀ p ∈ pre, ∃ ni log, editItem oracle p = (.ok ni, log))
    (h : (edit_json_with_openai oracle rest).1 = .error e) :
    (edit_json_with_openai oracle (pre ++ rest)).1 = .error e := by
  induction pre with
  | nil => simpa using h
  | cons p ps ih =>
    obtain ⟨ni, log, hp⟩ := hpre p (List.mem_cons_self p ps)
    have hrec := ih fun q hq => hpre q (List.mem_cons_of_mem p hq)
    rw [List.cons_append]
    simp only [edit_json_with_openai, hp]
    rcases h2 : edit_json_with_openai oracle (ps ++ rest) with ⟨r2, log2⟩
    rw [h2] at hrec
    cases r2 with
    | error e2 => simp only at hrec; rw [hrec]
    | ok nis => simp at hrec

theorem edit_json_err_head (oracle : JValue → Except ApiErr String)
    (item : Item) (post : List Item) (e : EditErr) (log : List JValue)
    (h : editItem oracle item = (.error e, log)) :
    (edit_json_with_openai oracle (item :: post)).1 = .error e := by
  simp only [edit_json_with_openai, h]

theorem edit_json_err_head1 (oracle : JValue → Except ApiErr String)
    (item : Item) (post : List Item) (e : EditErr)
    (h : (editItem oracle item).1 = .error e) :
    (edit_json_with_openai oracle (item :: post)).1 = .error e := by
  rcases hp : editItem oracle item with ⟨r, log⟩
  rw [hp] at h
  simp only at h
  rw [h] at hp
  exact edit_json_err_head oracle item post e log hp

/-- C5 counterexample: a two-row batch whose first (dirty) row gets the
single-line response `"OnlyTitle"` aborts with an uncaught `IndexError`:
the batch fails and no output is produced for the second row. -/
theorem short_response_fails_batch_counterexample :
    (edit_json_with_openai (fun _ => .ok "OnlyTitle")
      [[("タイトル", .jstr "a"), ("color", .jbool true)],
       [("タイトル", .jstr "b"), ("color", .jbool false)]]).1 =
      .error .indexError := rfl

/-- C5 amended: a dirty row whose model response has fewer than two
non-empty stripped lines fails the whole batch: after any prefix of
successfully processed rows, the uncaught `IndexError` aborts the call and
no edited list is returned; the row is not kept with its single line, and
the remaining rows are not processed. -/
theorem short_response_fails_batch_amended
    (oracle : JValue → Except ApiErr String)
    (pre post : List Item) (item : Item) (text : String)
    (hpre : ∀ p ∈ pre, ∃ ni log, editItem oracle p = (.ok ni, log))
    (hc : pyEqTrue (dgetD item "color" (.jbool false)) = true)
    (ho : oracle (dgetD item "タイトル" .jnull) = .ok text)
    (hlen : (splitLines text).length < 2) :
    (edit_json_with_openai oracle (pre ++ item :: post)).1 =
      .error .indexError := by
  apply edit_json_err_after_ok_run oracle pre _ _ hpre
  exact edit_json_err_head1 oracle item post _
    (editItem_short_response oracle item text hc ho hlen)

theorem short_response_fails_batch_amended_witness :
    (edit_json_with_openai (fun _ => .ok "Solo")
      ([[("タイトル", .jstr "b"), ("color", .jbool false)]] ++
        [("タイトル", .jstr "a"), ("color", .jbool true)] ::
        [[("タイトル", .jstr "c"), ("color", .jbool false)]])).1 =
      .error .indexError :=
  short_response_fails_batch_amended (fun _ => .ok "Solo")
    [[("タイトル", .jstr "b"), ("color", .jbool false)]]
    [[("タイトル", .jstr "c"), ("color", .jbool false)]]
    [("タイトル", .jstr "a"), ("color", .jbool true)] "Solo"
    (fun p hp =>
      ⟨[("タイトル", .jstr "b"), ("color", .jbool false)], [],
        by rw [List.mem_singleton.mp hp]; rfl⟩)
    (by decide) rfl (by decide)


theorem editItem_remote_fail (oracle : JValue → Except ApiErr String)
    (item : Item) (e : ApiErr)
    (hc : pyEqTrue (dgetD item "color" (.jbool false)) = true)
    (ho : oracle (dgetD item "タイトル" .jnull) = .error e) :
    editItem oracle item = (.error (reraise e), [dgetD item "タイトル" .jnull]) := by
  simp only [editItem, hc, if_true, ho]
  cases e <;> rfl

/-- C8: when the remote call for a row fails with an authentication error
or an API error — after any prefix of successfully processed rows — the
whole batch aborts with the re-raised exception; no list of the rows
processed so far is returned. -/
theorem remote_failure_aborts_batch (oracle : JValue → Except ApiErr String)
    (pre post : List Item) (item : Item) (e : ApiErr)
    (hpre : ∀ p ∈ pre, ∃ ni log, editItem oracle p = (.ok ni, log))
    (hc : pyEqTrue (dgetD item "color" (.jbool false)) = true)
    (ho : oracle (dgetD item "タイトル" .jnull) = .error e) :
    (edit_json_with_openai oracle (pre ++ item :: post)).1 =
      .error (reraise e) := by
  apply edit_json_err_after_ok_run oracle pre _ _ hpre
  exact edit_json_err_head oracle item post _ _
    (editItem_remote_fail oracle item e hc ho)

theorem remote_failure_aborts_batch_witness :
    (edit_json_with_openai (fun _ => .error .authError)
      ([[("タイトル", .jstr "b"), ("color", .jbool false)]] ++
        [("タイトル", .jstr "a"), ("color", .jbool true)] ::
        [[("タイトル", .jstr "c"), ("color", .jbool false)]])).1 =
      .error (reraise .authError) :=
  remote_failure_aborts_batch (fun _ => .error .authError)
    [[("タイトル", .jstr "b"), ("color", .jbool false)]]
    [[("タイトル", .jstr "c"), ("color", .jbool false)]]
    [("タイトル", .jstr "a"), ("color", .jbool true)] .authError
    (fun p hp =>
      ⟨[("タイトル", .jstr "b"), ("color", .jbool false)], [],
        by rw [List.mem_singleton.mp hp]; rfl⟩)
    (by decide) rfl

theorem editItem_frame (oracle : JValue → Except ApiErr String)
    (item ni : Item) (log : List JValue)
    (h : editItem oracle item = (.ok ni, log)) (k : String)
    (hk1 : k ≠ "タイトル") (hk2 : k ≠ "巻数") :
    dget? ni k = dget? item k := by
  cases hb : pyEqTrue (dgetD item "color" (.jbool false)) with
  | false =>
    rw [editItem_clean oracle item hb] at h
    simp only [Prod.mk.injEq, Except.ok.injEq] at h
    rw [← h.1, dget_dset_ne _ _ _ _ hk1]
  | true =>
    simp only [editItem, hb, if_true] at h
    rcases ho : oracle (dgetD item "タイトル" .jnull) with e | text
    · rw [ho] at h; cases e <;> simp at h
    · rw [ho] at h
      simp only at h
      rcases hl : splitLines text with _ | ⟨title, _ | ⟨explanation, tail⟩⟩
      · rw [hl] at h; simp at h
      · rw [hl] at h; simp at h
      · rw [hl] at h
        simp only [Prod.mk.injEq, Except.ok.injEq] at h
        obtain ⟨hni, -⟩ := h
        rw [← hni]
        by_cases he : explanation = "0" <;>
          simp [he, dget_dset_ne _ _ _ _ hk1, dget_dset_ne _ _ _ _ hk2]

/-- C10: whenever the normalizer returns normally, its output has exactly
one item per input item in the same order, and each output item agrees
with its input item on every key other than the title key (タイトル) and
the volume key (巻数) — in particular the ASIN and color-flag fields are
carried through. -/
theorem normalizer_preserves_other_keys (oracle : JValue → Except ApiErr String)
    (data out : List Item) (log : List JValue)
    (h : edit_json_with_openai oracle data = (.ok out, log)) :
    out.length = data.length ∧
    (∀ (i : Nat) (item ni : Item), data[i]? = some item → out[i]? = some ni →
      ∀ k, k ≠ "タイトル" → k ≠ "巻数" → dget? ni k = dget? item k) := by
  induction data generalizing out log with
  | nil =>
    simp only [edit_json_with_openai, Prod.mk.injEq, Except.ok.injEq] at h
    obtain ⟨h1, -⟩ := h
    subst h1
    simp
  | cons item rest ih =>
    simp only [edit_json_with_openai] at h
    rcases hi : editItem oracle item with ⟨r, log1⟩
    rw [hi] at h
    cases r with
    | error e => simp at h
    | ok ni1 =>
      rcases hr : edit_json_with_openai oracle rest with ⟨r2, log2⟩
      rw [hr] at h
      cases r2 with
      | error e => simp at h
      | ok nis =>
        simp only [Prod.mk.injEq, Except.ok.injEq] at h
        obtain ⟨hout, -⟩ := h
        subst hout
        obtain ⟨hlen, hframe⟩ := ih nis log2 hr
        refine ⟨by simp [hlen], ?_⟩
        intro i it ni hit hni k hk1 hk2
        cases i with
        | zero =>
          simp only [List.getElem?_cons_zero, Option.some.injEq] at hit hni
          rw [← hit, ← hni]
          exact editItem_frame oracle item ni1 log1 hi k hk1 hk2
        | succ n =>
          simp only [List.getElem?_cons_succ] at hit hni
          exact hframe n it ni hit hni k hk1 hk2

theorem normalizer_preserves_other_keys_witness :
    ([[("color", .jbool false), ("ASIN", .jstr "A1"), ("タイトル", .jnull)]] :
      List Item).length =
      ([[("color", .jbool false), ("ASIN", .jstr "A1")]] : List Item).length ∧
    (∀ (i : Nat) (item ni : Item),
      ([[("color", .jbool false), ("ASIN", .jstr "A1")]] : List Item)[i]? =
        some item →
      ([[("color", .jbool false), ("ASIN", .jstr "A1"), ("タイトル", .jnull)]] :
        List Item)[i]? = some ni →
      ∀ k, k ≠ "タイトル" → k ≠ "巻数" → dget? ni k = dget? item k) :=
  normalizer_preserves_other_keys (fun _ => .ok "T\n2")
    [[("color", .jbool false), ("ASIN", .jstr "A1")]]
    [[("color", .jbool false), ("ASIN", .jstr "A1"), ("タイトル", .jnull)]]
    [] rfl


theorem makeRow_length (width : Nat) (item : Item) :
    (makeRow width item).length = width := by
  simp [makeRow]

theorem makeRow_title (width : Nat) (item : Item) (h : 15 ≤ width) :
    (makeRow width item)[2]? = some (jToCsv (dgetD item "タイトル" (.jstr ""))) := by
  unfold makeRow
  rw [List.getElem?_set_ne (by omega), List.getElem?_set_ne (by omega),
    List.getElem?_set_self (by simp; omega)]

theorem makeRow_volume (width : Nat) (item : Item) (h : 15 ≤ width) :
    (makeRow width item)[6]? = some (jToCsv (dgetD item "巻数" (.jstr ""))) := by
  unfold makeRow
  rw [List.getElem?_set_ne (by omega),
    List.getElem?_set_self (by simp; omega)]

theorem makeRow_asin (width : Nat) (item : Item) (h : 15 ≤ width) :
    (makeRow width item)[14]? = some (jToCsv (dgetD item "ASIN" (.jstr ""))) := by
  unfold makeRow
  rw [List.getElem?_set_self (by simp; omega)]

theorem makeRow_other (width : Nat) (item : Item) (j : Nat) (hj : j < width)
    (h2 : j ≠ 2) (h6 : j ≠ 6) (h14 : j ≠ 14) :
    (makeRow width item)[j]? = some "" := by
  unfold makeRow
  rw [List.getElem?_set_ne (Ne.symm h14), List.getElem?_set_ne (Ne.symm h6),
    List.getElem?_set_ne (Ne.symm h2), List.getElem?_replicate_of_lt hj]

theorem convert_ok_shape (json_data : List Item) (header : List String)
    (rest : List (List String)) (out : List (List String))
    (hout : input_json_convert_csv json_data (header :: rest) = .ok out) :
    json_data ≠ [] ∧ 15 ≤ header.length ∧
    out = header :: json_data.map (makeRow header.length) := by
  by_cases hne : json_data = []
  · subst hne; simp [input_json_convert_csv] at hout
  · refine ⟨hne, ?_⟩
    by_cases hw : header.length < 15
    · simp [input_json_convert_csv, hne, hw] at hout
    · simp only [input_json_convert_csv, hne, if_false, hw, if_neg,
        CsvResult.ok.injEq] at hout
      exact ⟨by omega, hout.symm⟩

/-- C6: for a non-empty record sequence and a pre-existing file whose
header has at least the 15 required columns, the output's row 0 is the
header verbatim, there is exactly one data row per record in the input
order, each data row carries the title at column 2, the volume at column 6
and the ASIN at column 14, and a missing record field is written as the
empty string. -/
theorem export_layout (json_data : List Item) (header : List String)
    (rest : List (List String)) (out : List (List String))
    (hout : input_json_convert_csv json_data (header :: rest) = .ok out) :
    out[0]? = some header ∧
    out.length = json_data.length + 1 ∧
    (∀ (i : Nat) (item : Item), json_data[i]? = some item →
      cellAt out (i + 1) 2 = some (jToCsv (dgetD item "タイトル" (.jstr ""))) ∧
      cellAt out (i + 1) 6 = some (jToCsv (dgetD item "巻数" (.jstr ""))) ∧
      cellAt out (i + 1) 14 = some (jToCsv (dgetD item "ASIN" (.jstr ""))) ∧
      (dget? item "タイトル" = none → cellAt out (i + 1) 2 = some "") ∧
      (dget? item "巻数" = none → cellAt out (i + 1) 6 = some "") ∧
      (dget? item "ASIN" = none → cellAt out (i + 1) 14 = some "")) := by
  obtain ⟨hne, hw, hsh⟩ := convert_ok_shape json_data header rest out hout
  subst hsh
  refine ⟨by simp, by simp, ?_⟩
  intro i item hitem
  have hrow : (header :: json_data.map (makeRow header.length))[i + 1]? =
      some (makeRow header.length item) := by
    simp [List.getElem?_cons_succ, List.getElem?_map, hitem]
  have hcell : ∀ j : Nat,
      cellAt (header :: json_data.map (makeRow header.length)) (i + 1) j =
        (makeRow header.length item)[j]? := by
    intro j
    simp [cellAt, hrow]
  refine ⟨by rw [hcell, makeRow_title _ _ hw], by rw [hcell, makeRow_volume _ _ hw],
    by rw [hcell, makeRow_asin _ _ hw], ?_, ?_, ?_⟩
  · intro hmiss
    rw [hcell, makeRow_title _ _ hw]
    simp [dgetD, hmiss, jToCsv]
  · intro hmiss
    rw [hcell, makeRow_volume _ _ hw]
    simp [dgetD, hmiss, jToCsv]
  · intro hmiss
    rw [hcell, makeRow_asin _ _ hw]
    simp [dgetD, hmiss, jToCsv]

theorem export_layout_witness :
    (input_json_convert_csv
        [[("タイトル", .jstr "T"), ("ASIN", .jstr "A")]]
        (List.replicate 15 "h" :: [["old"]]) = .ok
        (List.replicate 15 "h" ::
          [[("タイトル", .jstr "T"), ("ASIN", .jstr "A")]].map
            (makeRow (List.replicate 15 "h").length))) ∧
    (List.replicate 15 "h" ::
        [[("タイトル", .jstr "T"), ("ASIN", .jstr "A")]].map
          (makeRow (List.replicate 15 "h").length))[0]? =
      some (List.replicate 15 "h") := by
  refine ⟨by decide, ?_⟩
  exact (export_layout [[("タイトル", .jstr "T"), ("ASIN", .jstr "A")]]
    (List.replicate 15 "h") [["old"]] _ (by decide)).1

/-- C7 counterexample: a pre-existing CSV with a 15-column header and one
data row whose column 0 holds `"keep"` is rewritten by the Export Writer
with one record; in the output, the data row's column 0 is the empty
string — the columns the pipeline does not own are not preserved. -/
theorem export_preserve_counterexample :
    input_json_convert_csv [[("タイトル", .jstr "T")]]
      [List.replicate 15 "h", ["keep", "x"]] =
      .ok [List.replicate 15 "h",
        ["", "", "T", "", "", "", "", "", "", "", "", "", "", "", ""]] ∧
    cellAt [List.replicate 15 "h", ["keep", "x"]] 1 0 = some "keep" ∧
    cellAt [List.replicate 15 "h",
        ["", "", "T", "", "", "", "", "", "", "", "", "", "", "", ""]] 1 0 =
      some "" := ⟨by decide, by decide, by decide⟩

/-- C7 amended: the Export Writer reads only the header row of the
pre-existing file — its output is unchanged when the pre-existing data rows
are replaced by any others — and every data row it writes holds the empty
string in all columns other than 2, 6 and 14; the output data-row count is
the record count, not the pre-existing row count. -/
theorem export_discards_rows_amended (json_data : List Item)
    (header : List String) (rest rest2 : List (List String))
    (out : List (List String))
    (hout : input_json_convert_csv json_data (header :: rest) = .ok out) :
    input_json_convert_csv json_data (header :: rest2) = .ok out ∧
    out.length = json_data.length + 1 ∧
    (∀ i j : Nat, i < json_data.length → j < header.length →
      j ≠ 2 → j ≠ 6 → j ≠ 14 → cellAt out (i + 1) j = some "") := by
  obtain ⟨hne, hw, hsh⟩ := convert_ok_shape json_data header rest out hout
  subst hsh
  refine ⟨?_, by simp, ?_⟩
  · simp only [input_json_convert_csv, hne, if_false]
    rw [if_neg (by omega)]
  · intro i j hi hj h2 h6 h14
    obtain ⟨item, hitem⟩ : ∃ item, json_data[i]? = some item :=
      ⟨json_data[i], (List.getElem?_eq_getElem hi)⟩
    have hrow : (header :: json_data.map (makeRow header.length))[i + 1]? =
        some (makeRow header.length item) := by
      simp [List.getElem?_cons_succ, List.getElem?_map, hitem]
    simp only [cellAt, hrow, Option.bind_some]
    exact makeRow_other header.length item j hj h2 h6 h14

theorem export_discards_rows_amended_witness :
    input_json_convert_csv [[("タイトル", .jstr "T")]]
      (List.replicate 15 "h" :: [["other"]]) =
      .ok (List.replicate 15 "h" ::
        [[("タイトル", .jstr "T")]].map (makeRow (List.replicate 15 "h").length)) ∧
    (List.replicate 15 "h" ::
        [[("タイトル", .jstr "T")]].map
          (makeRow (List.replicate 15 "h").length)).length =
      ([[("タイトル", .jstr "T")]] : List Item).length + 1 ∧
    (∀ i j : Nat, i < ([[("タイトル", .jstr "T")]] : List Item).length →
      j < (List.replicate 15 "h" : List String).length →
      j ≠ 2 → j ≠ 6 → j ≠ 14 →
      cellAt (List.replicate 15 "h" ::
        [[("タイトル", .jstr "T")]].map (makeRow (List.replicate 15 "h").length))
        (i + 1) j = some "") :=
  export_discards_rows_amended [[("タイトル", .jstr "T")]]
    (List.replicate 15 "h") [["keep", "x"]] [["other"]] _ (by decide)

theorem tryEncodings_none_iff (decode : String → Option RegRows)
    (es : List String) :
    tryEncodings decode es = none ↔ ∀ e ∈ es, decode e = none := by
  induction es with
  | nil => simp [tryEncodings]
  | cons a as ih =>
    cases ha : decode a with
    | none => simp [tryEncodings, ha, ih]
    | some rows => simp [tryEncodings, ha]

theorem tryEncodings_first (decode : String → Option RegRows)
    (es : List String) (i : Nat) (e : String) (rows : RegRows)
    (hi : es[i]? = some e) (hd : decode e = some rows)
    (hj : ∀ (j : Nat) (e2 : String), j < i → es[j]? = some e2 →
      decode e2 = none) :
    tryEncodings decode es = some rows := by
  induction es generalizing i with
  | nil => simp at hi
  | cons a as ih =>
    cases i with
    | zero =>
      simp only [List.getElem?_cons_zero, Option.some.injEq] at hi
      subst hi
      simp [tryEncodings, hd]
    | succ n =>
      have ha : decode a = none :=
        hj 0 a (Nat.succ_pos n) (by simp)
      simp only [tryEncodings, ha]
      exact ih n (by simpa using hi)
        (fun j e2 hji hjj => hj (j + 1) e2 (by omega) (by simpa using hjj))

/-- C9: the Registry Reader raises its read error exactly when every
encoding in the fixed candidate list fails to decode the file, and returns
the parsed rows of the first encoding that succeeds (all earlier candidates
having failed). -/
theorem reader_first_encoding_or_error (decode : String → Option RegRows) :
    (read_public_csv decode = .error () ↔
      ∀ e ∈ DEFAULT_ENCODINGS, decode e = none) ∧
    (∀ (i : Nat) (e : String) (rows : RegRows),
      DEFAULT_ENCODINGS[i]? = some e → decode e = some rows →
      (∀ (j : Nat) (e2 : String), j < i → DEFAULT_ENCODINGS[j]? = some e2 →
        decode e2 = none) →
      read_public_csv decode = .ok rows) := by
  constructor
  · constructor
    · intro h
      rcases ht : tryEncodings decode DEFAULT_ENCODINGS with _ | rows
      · exact (tryEncodings_none_iff decode DEFAULT_ENCODINGS).mp ht
      · unfold read_public_csv at h
        rw [ht] at h
        simp at h
    · intro h
      unfold read_public_csv
      rw [(tryEncodings_none_iff decode DEFAULT_ENCODINGS).mpr h]
  · intro i e rows hi hd hj
    unfold read_public_csv
    rw [tryEncodings_first decode DEFAULT_ENCODINGS i e rows hi hd hj]

theorem reader_first_encoding_or_error_witness :
    read_public_csv
      (fun e => if e = "utf-8-sig" then some [[("k", "v")]] else none) =
      .ok [[("k", "v")]] :=
  (reader_first_encoding_or_error
    (fun e => if e = "utf-8-sig" then some [[("k", "v")]] else none)).2
    0 "utf-8-sig" [[("k", "v")]] (by decide) (by decide)
    (fun j e2 hj _ => absurd hj (Nat.not_lt_zero j))

end ExcelAI
